import Mathlib

/-!
Verification of the run-time resource-management core of an experiment
worker (`artiq/master/worker_db.py`): run-id allocation (`RIDCounter`),
device handle management (`DeviceManager`), the two-tier dataset store
(`DatasetManager`) and the HDF5 result serializer (`result_dict_to_hdf5`).

The Python code is shallowly embedded: Python dicts become insertion-ordered
association lists, mutable list objects become a heap of containers addressed
by natural numbers (so that aliasing between the local and broadcast mappings
is represented faithfully), exceptions become explicit error results, and the
filesystem accessed by `RIDCounter` becomes an explicit structure where a
failed `os.listdir` is a `none` listing.
-/

namespace WorkerDB

/-- Python `dict` assignment `d[k] = v`: replace in place if the key exists,
otherwise append at the end (insertion order, as for `dict`/`OrderedDict`). -/
def dictInsert (k : String) (v : α) : List (String × α) → List (String × α)
  | [] => [(k, v)]
  | (k', v') :: rest =>
      if k' = k then (k, v) :: rest else (k', v') :: dictInsert k v rest

/-- Python `d[k]` / `k in d` on a dict modelled as an association list. -/
def dictLookup (k : String) : List (String × α) → Option α
  | [] => none
  | (k', v') :: rest => if k' = k then some v' else dictLookup k rest

theorem dictLookup_dictInsert (k : String) (v : α) (m : List (String × α)) :
    dictLookup k (dictInsert k v m) = some v := by
  induction m with
  | nil => simp [dictInsert, dictLookup]
  | cons p rest ih =>
      by_cases h : p.1 = k
      · simp [dictInsert, dictLookup, h]
      · simpa [dictInsert, dictLookup, h] using ih

/-- A Python value held in a dataset mapping: `None`, a (mutable) list object
identified by its heap address, or an integer scalar. -/
inductive PVal where
  | none
  | list (addr : Nat)
  | int (n : Int)
  deriving DecidableEq, Repr

/-- State of `DatasetManager`.  `heap` holds the mutable list objects that
`PVal.list` addresses refer to (container elements are integers).  `localMap`
embeds `self.local` (a plain dict), `broadcastMap` the backing dict
`self.broadcast.read` of the `Notifier`.

`publishLog` is modelled from the spec: the `Notifier` collaborator
(`artiq.protocols.sync_struct`, not part of the analysed sources) forwards
every broadcast write `(key, (persist, value))` to the external publish
collaborator (`ddb.update`); the log records those forwarded changes. -/
structure DatasetManager where
  heap : List (List Int)
  localMap : List (String × PVal)
  broadcastMap : List (String × (Bool × PVal))
  publishLog : List (String × (Bool × PVal))
  deriving DecidableEq, Repr

/-- `DatasetManager.set(key, value, broadcast=False, persist=False, save=True)`:
if `persist` then `broadcast` is forced true; if `broadcast`, store
`(persist, value)` in the broadcast mapping (the `Notifier` assignment also
publishes the change); if `save`, store `value` in the local mapping. -/
def DatasetManager.set (s : DatasetManager) (key : String) (value : PVal)
    (broadcast : Bool := false) (persist : Bool := false) (save : Bool := true) :
    DatasetManager :=
  let broadcast := persist || broadcast
  let s1 :=
    if broadcast then
      { s with broadcastMap := dictInsert key (persist, value) s.broadcastMap,
               publishLog := s.publishLog ++ [(key, (persist, value))] }
    else s
  if save then { s1 with localMap := dictInsert key value s1.localMap } else s1

/-- Python list index normalisation for `target[index] = value`: a negative
index counts from the end; an index out of range is an `IndexError`. -/
def normIndex (len : Nat) (i : Int) : Option Nat :=
  let j := if i < 0 then i + len else i
  if 0 ≤ j ∧ j < len then some j.toNat else none

/-- `DatasetManager.mutate(key, index, value)`:

    target = None
    if key in self.local:     target = self.local[key]
    if key in self.broadcast.read: target = self.broadcast[key][1]
    if target is None: raise KeyError(...)
    target[index] = value

The result pairs the post-state with `ok` or the raised exception; when an
exception is raised the state is returned unchanged (the write never
happened). -/
def DatasetManager.mutate (s : DatasetManager) (key : String) (index : Int)
    (value : Int) : DatasetManager × Except String Unit :=
  let target : PVal := PVal.none
  let target : PVal :=
    match dictLookup key s.localMap with
    | some v => v
    | Option.none => target
  let target : PVal :=
    match dictLookup key s.broadcastMap with
    | some pv => pv.2
    | Option.none => target
  match target with
  | PVal.none => (s, Except.error "KeyError: Cannot mutate non-existing dataset")
  | PVal.int _ => (s, Except.error "TypeError: object does not support item assignment")
  | PVal.list addr =>
      match s.heap[addr]? with
      | Option.none => (s, Except.error "invalid object reference")
      | some cont =>
          match normIndex cont.length index with
          | Option.none => (s, Except.error "IndexError: list assignment index out of range")
          | some i =>
              ({ s with heap := s.heap.set addr (cont.set i value) }, Except.ok ())

/-- `DatasetManager.get(key)`: the local value if the key is present locally,
otherwise the read-through lookup on the external dataset database. -/
def DatasetManager.get (s : DatasetManager) (key : String)
    (ddbGet : String → Option PVal) : Option PVal :=
  match dictLookup key s.localMap with
  | some v => some v
  | Option.none => ddbGet key

/-! ## RIDCounter

The filesystem that `RIDCounter` touches is modelled explicitly.  The cache
file holds one decimal integer (written as `str(rid) + "\n"`, read back by
`int(f.read())`), so its contents are modelled as the parsed integer;
`cache = none` is an absent file (`FileNotFoundError` on open).  The results
tree is three nested levels of `os.listdir` output; a listing is `none` when
`os.listdir` raises (missing or unreadable directory), matching the bare
`except:` handlers in the source.  Python's `\d` also accepts non-ASCII
Unicode decimal digits; entry names are modelled over ASCII. -/

/-- Files of one minute folder, or `none` when listing it fails. -/
abbrev MinuteListing := Option (List String)

/-- Minute folders of one day folder (name and contents), or `none`. -/
abbrev DayListing := Option (List (String × MinuteListing))

/-- Day folders of the results directory, or `none` when the results
directory itself cannot be listed. -/
abbrev ResultsListing := Option (List (String × DayListing))

/-- The filesystem state seen by a `RIDCounter`. -/
structure FS where
  cache : Option Int
  results : ResultsListing
  deriving Repr

/-- `re.fullmatch('\d\d\d\d-\d\d-\d\d', s)` (day folder names). -/
def matchDay (s : String) : Bool :=
  match s.data with
  | [a, b, c, d, e, f, g, h, i, j] =>
      a.isDigit && b.isDigit && c.isDigit && d.isDigit && e = '-' &&
      f.isDigit && g.isDigit && h = '-' && i.isDigit && j.isDigit
  | _ => false

/-- `re.fullmatch('\d\d-\d\d', s)` (minute folder names). -/
def matchMinute (s : String) : Bool :=
  match s.data with
  | [a, b, c, d, e] => a.isDigit && b.isDigit && c = '-' && d.isDigit && e.isDigit
  | _ => false

/-- Value of a digit string, as `int()` computes it. -/
def digitsToNat (cs : List Char) : Nat :=
  cs.foldl (fun acc c => acc * 10 + (c.toNat - '0'.toNat)) 0

/-- `.*\.h5` on the remainder after `NNNNNNNNN-`: everything up to the final
`.h5` must be newline-free (`.` does not match a newline) and the name must
end in `.h5`. -/
def matchH5Tail (cs : List Char) : Bool :=
  3 ≤ cs.length &&
  cs.drop (cs.length - 3) = ['.', 'h', '5'] &&
  (cs.take (cs.length - 3)).all (· ≠ '\n')

/-- `re.fullmatch('(\d\d\d\d\d\d\d\d\d)-.*\.h5', x)`, returning
`int(m.group(1))` on a match. -/
def matchResultFile (x : String) : Option Nat :=
  match x.data with
  | a :: b :: c :: d :: e :: f :: g :: h :: i :: rest =>
      if (a.isDigit && b.isDigit && c.isDigit && d.isDigit && e.isDigit &&
          f.isDigit && g.isDigit && h.isDigit && i.isDigit) then
        match rest with
        | '-' :: tail =>
            if matchH5Tail tail then some (digitsToNat [a, b, c, d, e, f, g, h, i])
            else none
        | _ => none
      else none
  | _ => none

/-- `RIDCounter._last_rid_from_results`: start from `r = -1`, walk the
matching day and minute folders (a failed listing is skipped), and keep the
largest matched RID. -/
def lastRidFromResults (rl : ResultsListing) : Int :=
  match rl with
  | Option.none => -1
  | some dayFolders =>
      (dayFolders.filter (fun df => matchDay df.1)).foldl (fun r df =>
        match df.2 with
        | Option.none => r
        | some minuteFolders =>
            (minuteFolders.filter (fun mf => matchMinute mf.1)).foldl (fun r mf =>
              match mf.2 with
              | Option.none => r
              | some h5files =>
                  h5files.foldl (fun r x =>
                    match matchResultFile x with
                    | Option.none => r
                    | some rid => if (rid : Int) > r then rid else r) r) r) (-1)

/-- In-memory state of a `RIDCounter` (the `_next_rid` attribute). -/
structure RIDCounter where
  next_rid : Int
  deriving Repr

/-- `RIDCounter._update_cache(rid)`: atomically replace the cache contents. -/
def updateCache (fs : FS) (rid : Int) : FS :=
  { fs with cache := some rid }

/-- `RIDCounter._last_rid`: the cached value when the cache file exists,
otherwise the value recovered by scanning the results tree, written back to
the cache before returning. -/
def lastRid (fs : FS) : Int × FS :=
  match fs.cache with
  | some rid => (rid, fs)
  | Option.none =>
      let rid := lastRidFromResults fs.results
      (rid, updateCache fs rid)

/-- `RIDCounter.__init__`: `_next_rid = _last_rid() + 1`. -/
def RIDCounter.new (fs : FS) : RIDCounter × FS :=
  let (last, fs) := lastRid fs
  ({ next_rid := last + 1 }, fs)

/-- `RIDCounter.get`: return `_next_rid`, increment it, update the cache. -/
def RIDCounter.get (c : RIDCounter) (fs : FS) : Int × RIDCounter × FS :=
  let rid := c.next_rid
  (rid, { next_rid := rid + 1 }, updateCache fs rid)

/-- A sequence of `n` successive `get()` calls, collecting the returned run
ids in order. -/
def runGets : Nat → RIDCounter → FS → List Int × RIDCounter × FS
  | 0, c, fs => ([], c, fs)
  | n + 1, c, fs =>
      let (rid, c', fs') := c.get fs
      let (rids, c'', fs'') := runGets n c' fs'
      (rid :: rids, c'', fs'')

/-! ## DeviceManager

Device construction (`_create_device`) performs dynamic module loading and
RPC connection, which are opaque here; a handle is modelled by what
`close_devices` can observe of it: whether it is an RPC client
(`Client` / `BestEffortClient`, closed via `close_rpc`), whether it exposes a
`close` attribute, and whether its close call raises. -/

/-- What kind of close operation a device handle supports. -/
inductive DevKind where
  | client
  | closable
  | plain
  deriving DecidableEq, Repr

/-- A device handle as seen by teardown. -/
structure Device where
  devId : Nat
  kind : DevKind
  closeRaises : Bool
  deriving DecidableEq, Repr

/-- State of a `DeviceManager`: the pre-supplied virtual devices and the
insertion-ordered `active_devices` mapping. -/
structure DeviceManager where
  virtual_devices : List (String × Device)
  active_devices : List (String × Device)
  deriving DecidableEq, Repr

/-- The caching part of `DeviceManager.get`: a virtual device or an already
active name leaves the state unchanged; otherwise the freshly created handle
is recorded at the end of `active_devices`. -/
def DeviceManager.getDevice (m : DeviceManager) (name : String) (dev : Device) :
    DeviceManager :=
  match dictLookup name m.virtual_devices with
  | some _ => m
  | Option.none =>
      match dictLookup name m.active_devices with
      | some _ => m
      | Option.none => { m with active_devices := m.active_devices ++ [(name, dev)] }

/-- The loop body of `close_devices` on an already reversed handle list: an
RPC client gets `close_rpc()`, any other handle with a `close` attribute gets
`close()`, and an exception raised by either is caught and logged, so the
loop always continues.  Each performed close attempt is recorded as
`(device id, whether it raised)`. -/
def closeLoop : List Device → List (Nat × Bool)
  | [] => []
  | d :: rest =>
      match d.kind with
      | DevKind.client => (d.devId, d.closeRaises) :: closeLoop rest
      | DevKind.closable => (d.devId, d.closeRaises) :: closeLoop rest
      | DevKind.plain => closeLoop rest

/-- `DeviceManager.close_devices`: close all active handles in reverse
creation order, then clear the active mapping. -/
def DeviceManager.close_devices (m : DeviceManager) :
    List (Nat × Bool) × DeviceManager :=
  (closeLoop ((m.active_devices.map Prod.snd).reverse),
   { m with active_devices := [] })

/-! ## Result serializer

`result_dict_to_hdf5` maps Python values to typed HDF5 datasets.  A value is
modelled by its type tag together with the payload the claims can observe;
float payloads and array contents are carried opaquely (their bit-level
encoding is HDF5's business, not this function's). -/

/-- The fixed-width NumPy scalar types appearing in `_type_to_hdf5`. -/
inductive NpType where
  | int8 | int16 | int32 | int64
  | uint8 | uint16 | uint32 | uint64
  | float16 | float32 | float64
  deriving DecidableEq, Repr

/-- Python type tags relevant to the serializer's dispatch. -/
inductive PyType where
  | bool
  | int
  | float
  | np (t : NpType)
  | str
  | ndarray
  | other (tyName : String)
  deriving DecidableEq, Repr

/-- A Python value passed to the serializer. -/
inductive PyVal where
  | pyBool (b : Bool)
  | pyInt (n : Int)
  | pyFloat
  | npInt (t : NpType) (n : Int)
  | npFloat (t : NpType)
  | ndarray (dtype : NpType) (shape : List Nat)
  | pyStr (s : String)
  | other (tyName : String)
  deriving DecidableEq, Repr

/-- `type(data)`. -/
def PyVal.pyType : PyVal → PyType
  | .pyBool _ => .bool
  | .pyInt _ => .int
  | .pyFloat => .float
  | .npInt t _ => .np t
  | .npFloat t => .np t
  | .ndarray _ _ => .ndarray
  | .pyStr _ => .str
  | .other n => .other n

/-- Printable name of a type tag, as interpolated into the `TypeError`. -/
def pyTypeName : PyType → String
  | .bool => "bool"
  | .int => "int"
  | .float => "float"
  | .np _ => "numpy scalar"
  | .ndarray => "numpy.ndarray"
  | .str => "str"
  | .other n => n

/-- HDF5 datatype codes used by the serializer (`h5py.h5t.*` plus the
fixed-length byte-string types `"S{n}"`). -/
inductive H5Type where
  | STD_I8BE | STD_I16BE | STD_I32BE | STD_I64BE
  | STD_U8BE | STD_U16BE | STD_U32BE | STD_U64BE
  | IEEE_F16BE | IEEE_F32BE | IEEE_F64BE
  | S (len : Nat)
  deriving DecidableEq, Repr

/-- Storage width of an HDF5 datatype, in bytes. -/
def H5Type.byteLen : H5Type → Nat
  | .STD_I8BE => 1
  | .STD_I16BE => 2
  | .STD_I32BE => 4
  | .STD_I64BE => 8
  | .STD_U8BE => 1
  | .STD_U16BE => 2
  | .STD_U32BE => 4
  | .STD_U64BE => 8
  | .IEEE_F16BE => 2
  | .IEEE_F32BE => 4
  | .IEEE_F64BE => 8
  | .S n => n

/-- The `_type_to_hdf5` dictionary; a type tag that is not a key gives
`none` (the `KeyError` path). -/
def type_to_hdf5 : PyType → Option H5Type
  | .int => some .STD_I64BE
  | .float => some .IEEE_F64BE
  | .np .int8 => some .STD_I8BE
  | .np .int16 => some .STD_I16BE
  | .np .int32 => some .STD_I32BE
  | .np .int64 => some .STD_I64BE
  | .np .uint8 => some .STD_U8BE
  | .np .uint16 => some .STD_U16BE
  | .np .uint32 => some .STD_U32BE
  | .np .uint64 => some .STD_U64BE
  | .np .float16 => some .IEEE_F16BE
  | .np .float32 => some .IEEE_F32BE
  | .np .float64 => some .IEEE_F64BE
  | _ => none

/-- `np.int64(n)`: NumPy integer construction wraps modulo `2^64`. -/
def toInt64 (n : Int) : Int := (n + 2 ^ 63) % 2 ^ 64 - 2 ^ 63

/-- UTF-8 encoding of one character (`str.encode()` uses UTF-8). -/
def utf8EncodeChar (c : Char) : List Nat :=
  let n := c.toNat
  if n < 0x80 then [n]
  else if n < 0x800 then
    [0xC0 + n / 0x40, 0x80 + n % 0x40]
  else if n < 0x10000 then
    [0xE0 + n / 0x1000, 0x80 + n / 0x40 % 0x40, 0x80 + n % 0x40]
  else
    [0xF0 + n / 0x40000, 0x80 + n / 0x1000 % 0x40, 0x80 + n / 0x40 % 0x40,
     0x80 + n % 0x40]

/-- `s.encode()`: the UTF-8 bytes of the string. -/
def pyEncode (s : String) : List Nat := s.data.foldr (fun c bs => utf8EncodeChar c ++ bs) []

/-- The payload written into a dataset. -/
inductive H5Data where
  | intVal (n : Int)
  | bytes (bs : List Nat)
  | floatVal
  | arrayVal (dtype : NpType) (shape : List Nat)
  deriving DecidableEq, Repr

/-- One HDF5 dataset as created by the serializer: its declared scalar
datatype (`none` for the array branch, where h5py infers the type from the
array), the stored payload, and the flag attributes set on it. -/
structure Dataset where
  dtype : Option H5Type
  data : H5Data
  attrs : List (String × Int)
  deriving DecidableEq, Repr

/-- The scalar payload assignment `dataset[()] = data`. -/
def storeScalar : PyVal → H5Data
  | .npInt _ n => .intVal n
  | _ => .floatVal

/-- The body of `result_dict_to_hdf5` for a single value:

    flag = None
    # beware: isinstance(True/False, int) == True
    if isinstance(data, bool): data = np.int8(data); flag = "py_bool"
    elif isinstance(data, int): data = np.int64(data); flag = "py_int"
    if isinstance(data, np.ndarray): dataset = f.create_dataset(name, data=data)
    else:
        ty = type(data)
        if ty is str: ty_h5 = "S{}".format(len(data)); data = data.encode()
        else: ty_h5 = _type_to_hdf5[ty]   # KeyError -> TypeError
        dataset = f.create_dataset(name, (), ty_h5); dataset[()] = data
    if flag is not None: dataset.attrs[flag] = np.int8(1)

Note the boolean test precedes the integer test (a Python `bool` is an
`int`), and the string length `len(data)` is taken on the text, before
`data.encode()`. -/
def serializeValue (data : PyVal) : Except String Dataset :=
  let converted : PyVal × Option String :=
    match data with
    | .pyBool b => (.npInt .int8 (if b then 1 else 0), some "py_bool")
    | .pyInt n => (.npInt .int64 (toInt64 n), some "py_int")
    | d => (d, none)
  let data := converted.1
  let flagAttrs : List (String × Int) :=
    match converted.2 with
    | some flagName => [(flagName, 1)]
    | Option.none => []
  match data with
  | .ndarray t sh =>
      Except.ok { dtype := none, data := .arrayVal t sh, attrs := flagAttrs }
  | .pyStr s =>
      Except.ok { dtype := some (.S s.length), data := .bytes (pyEncode s),
                  attrs := flagAttrs }
  | d =>
      match type_to_hdf5 d.pyType with
      | some tyH5 =>
          Except.ok { dtype := some tyH5, data := storeScalar d, attrs := flagAttrs }
      | Option.none =>
          Except.error ("Type " ++ pyTypeName d.pyType ++
                        " is not supported for HDF5 output")

/-- `result_dict_to_hdf5(f, rd)`: one dataset per entry, in mapping order;
the first unsupported value aborts with its `TypeError`. -/
def result_dict_to_hdf5 (rd : List (String × PyVal)) :
    Except String (List (String × Dataset)) :=
  match rd with
  | [] => Except.ok []
  | (name, v) :: rest =>
      match serializeValue v with
      | Except.error e => Except.error e
      | Except.ok d =>
          match result_dict_to_hdf5 rest with
          | Except.error e => Except.error e
          | Except.ok ds => Except.ok ((name, d) :: ds)

/-! ## Dataset store: mutation and broadcast theorems -/

/-- C6: `set(key, value, persist=True)` forces `broadcast` even though
`broadcast` was passed as `False`: the pair `(persist, value) = (True, value)`
is stored in the broadcast mapping (hence retrievable via the broadcast path)
and forwarded to the publish collaborator, for any prior store state and any
`save` flag. -/
theorem set_persist_forces_broadcast (s : DatasetManager) (key : String)
    (value : PVal) (save : Bool) :
    dictLookup key (s.set key value false true save).broadcastMap
      = some (true, value) ∧
    (s.set key value false true save).publishLog
      = s.publishLog ++ [(key, (true, value))] := by
  unfold DatasetManager.set
  cases save <;> simp [dictLookup_dictInsert]

/-- C7: `mutate` on a key absent from both the local and the broadcast
mapping raises the `KeyError` and returns the store state exactly unchanged:
no key is created and neither mapping (nor the heap) is modified. -/
theorem mutate_absent_key_error (s : DatasetManager) (key : String)
    (index value : Int)
    (hl : dictLookup key s.localMap = none)
    (hb : dictLookup key s.broadcastMap = none) :
    s.mutate key index value
      = (s, Except.error "KeyError: Cannot mutate non-existing dataset") := by
  unfold DatasetManager.mutate
  simp [hl, hb]

/-- Witness for C7 at a store holding an unrelated key. -/
theorem mutate_absent_key_error_witness :
    DatasetManager.mutate
        { heap := [[1, 2]], localMap := [("other", PVal.list 0)],
          broadcastMap := [], publishLog := [] } "k" 0 5
      = ({ heap := [[1, 2]], localMap := [("other", PVal.list 0)],
           broadcastMap := [], publishLog := [] },
         Except.error "KeyError: Cannot mutate non-existing dataset") :=
  mutate_absent_key_error _ "k" 0 5 (by decide) (by decide)

/-- C10: a key stored locally with value `None` (and absent from the
broadcast mapping) is indistinguishable from a missing key: `mutate` uses
`None` as its absent-target sentinel, so it raises the same `KeyError` and
leaves the store unchanged. -/
theorem mutate_local_none_sentinel (s : DatasetManager) (key : String)
    (index value : Int)
    (hl : dictLookup key s.localMap = some PVal.none)
    (hb : dictLookup key s.broadcastMap = none) :
    s.mutate key index value
      = (s, Except.error "KeyError: Cannot mutate non-existing dataset") := by
  unfold DatasetManager.mutate
  simp [hl, hb]

/-- Witness for C10: the key is present locally, with stored value `None`. -/
theorem mutate_local_none_sentinel_witness :
    dictLookup "k" [("k", PVal.none)] = some PVal.none ∧
    DatasetManager.mutate
        { heap := [], localMap := [("k", PVal.none)],
          broadcastMap := [], publishLog := [] } "k" 0 5
      = ({ heap := [], localMap := [("k", PVal.none)],
           broadcastMap := [], publishLog := [] },
         Except.error "KeyError: Cannot mutate non-existing dataset") :=
  ⟨by decide, mutate_local_none_sentinel _ "k" 0 5 (by decide) (by decide)⟩

/-- C1 counterexample: a store where key `"k"` is present in the local
mapping (container at heap address 0) and also in the broadcast mapping
(container at heap address 1).  `mutate("k", 0, 5)` succeeds but writes into
the broadcast container: the heap becomes `[[0], [5]]` and the local
container at address 0 still holds `[0]`, refuting the claim that the value
is written into the local mapping's container whenever the key is present
locally. -/
theorem mutate_prefers_broadcast_counterexample :
    dictLookup "k"
        (DatasetManager.localMap
          { heap := [[0], [0]], localMap := [("k", PVal.list 0)],
            broadcastMap := [("k", (false, PVal.list 1))], publishLog := [] })
      = some (PVal.list 0) ∧
    DatasetManager.mutate
        { heap := [[0], [0]], localMap := [("k", PVal.list 0)],
          broadcastMap := [("k", (false, PVal.list 1))], publishLog := [] }
        "k" 0 5
      = ({ heap := [[0], [5]], localMap := [("k", PVal.list 0)],
           broadcastMap := [("k", (false, PVal.list 1))], publishLog := [] },
         Except.ok ()) ∧
    (([[0], [5]] : List (List Int))[0]? = some [0]) :=
  ⟨rfl, rfl, rfl⟩

/-- C1 (amended): `mutate` prefers the broadcast mapping over the local one.
When the key is present in the broadcast mapping with a list target, the
write goes into the broadcast target's container regardless of the local
mapping; the local container is written only when the key is absent from the
broadcast mapping and present locally with a list value. -/
theorem mutate_prefers_broadcast (s : DatasetManager) (key : String)
    (index value : Int) :
    (∀ p addr cont i,
        dictLookup key s.broadcastMap = some (p, PVal.list addr) →
        s.heap[addr]? = some cont →
        normIndex cont.length index = some i →
        s.mutate key index value
          = ({ s with heap := s.heap.set addr (cont.set i value) },
             Except.ok ())) ∧
    (∀ addr cont i,
        dictLookup key s.broadcastMap = none →
        dictLookup key s.localMap = some (PVal.list addr) →
        s.heap[addr]? = some cont →
        normIndex cont.length index = some i →
        s.mutate key index value
          = ({ s with heap := s.heap.set addr (cont.set i value) },
             Except.ok ())) := by
  constructor
  · intro p addr cont i hb hc hi
    unfold DatasetManager.mutate
    simp [hb, hc, hi]
  · intro addr cont i hb hl hc hi
    unfold DatasetManager.mutate
    simp [hb, hl, hc, hi]

/-- Witness for C1 (amended): both preference branches at concrete stores;
with the key in both mappings the broadcast container (address 1) receives
the write, with the key only local the local container does. -/
theorem mutate_prefers_broadcast_witness :
    (DatasetManager.mutate
        { heap := [[0], [0]], localMap := [("k", PVal.list 0)],
          broadcastMap := [("k", (false, PVal.list 1))], publishLog := [] }
        "k" 0 5).1.heap = [[0], [5]] ∧
    (DatasetManager.mutate
        { heap := [[0]], localMap := [("k", PVal.list 0)],
          broadcastMap := [], publishLog := [] }
        "k" 0 5).1.heap = [[5]] := by
  have h1 := (mutate_prefers_broadcast
      { heap := [[0], [0]], localMap := [("k", PVal.list 0)],
        broadcastMap := [("k", (false, PVal.list 1))], publishLog := [] }
      "k" 0 5).1 false 1 [0] 0 (by decide) (by decide) (by decide)
  have h2 := (mutate_prefers_broadcast
      { heap := [[0]], localMap := [("k", PVal.list 0)],
        broadcastMap := [], publishLog := [] }
      "k" 0 5).2 0 [0] 0 (by decide) (by decide) (by decide) (by decide)
  rw [h1, h2]
  constructor <;> rfl

/-! ## Device teardown theorems -/

/-- The close operation `close_devices` performs on one handle, if any: an
RPC client is closed via `close_rpc()`, a handle exposing `close` via
`close()`, anything else is skipped. -/
def closeAttempt (d : Device) : Option (Nat × Bool) :=
  match d.kind with
  | DevKind.plain => none
  | _ => some (d.devId, d.closeRaises)

theorem closeLoop_eq_filterMap (l : List Device) :
    closeLoop l = l.filterMap closeAttempt := by
  induction l with
  | nil => rfl
  | cons d rest ih =>
      cases h : d.kind <;> simp [closeLoop, closeAttempt, h, ih]

theorem dictLookup_append (k : String) (xs ys : List (String × α)) :
    dictLookup k (xs ++ ys)
      = match dictLookup k xs with
        | some v => some v
        | Option.none => dictLookup k ys := by
  induction xs with
  | nil => simp [dictLookup]
  | cons p rest ih =>
      by_cases h : p.1 = k <;> simp [dictLookup, h, ih]

/-- Creating devices with pairwise distinct, non-virtual, not-yet-active
names appends them to `active_devices` in creation order. -/
theorem active_after_creations (cs : List (String × Device)) :
    ∀ (m : DeviceManager),
    (∀ p ∈ cs, dictLookup p.1 m.virtual_devices = none) →
    (∀ p ∈ cs, dictLookup p.1 m.active_devices = none) →
    (cs.map Prod.fst).Nodup →
    (cs.foldl (fun m p => m.getDevice p.1 p.2) m).active_devices
      = m.active_devices ++ cs := by
  induction cs with
  | nil => intro m _ _ _; simp
  | cons c rest ih =>
      intro m hv ha hnodup
      have hvc : dictLookup c.1 m.virtual_devices = none := hv c (by simp)
      have hac : dictLookup c.1 m.active_devices = none := ha c (by simp)
      have hstep : m.getDevice c.1 c.2
          = { m with active_devices := m.active_devices ++ [c] } := by
        unfold DeviceManager.getDevice
        simp [hvc, hac]
      rw [List.foldl_cons, hstep]
      rw [List.map_cons] at hnodup
      have hnodup' := List.nodup_cons.mp hnodup
      have hnotin : ∀ p ∈ rest, p.1 ≠ c.1 := by
        intro p hp hedge
        exact hnodup'.1 (hedge ▸ List.mem_map_of_mem Prod.fst hp)
      have := ih { m with active_devices := m.active_devices ++ [c] }
        (by intro p hp; exact hv p (List.mem_cons_of_mem _ hp))
        (by
          intro p hp
          rw [dictLookup_append]
          rw [ha p (List.mem_cons_of_mem _ hp)]
          simp [dictLookup, Ne.symm (hnotin p hp)])
        hnodup'.2
      rw [this]
      simp

/-- C5: for any sequence of device creations with distinct names,
`close_devices` performs one close attempt per closable handle (RPC clients
via `close_rpc`, handles with a `close` attribute via `close`) in exactly the
reverse order of creation.  The recorded trace is independent of which closes
raise, because an exception during a single close is caught, so a raising
handle never prevents the remaining (earlier-created) handles from being
closed; and the active-handle mapping is empty afterwards regardless of
failures. -/
theorem close_devices_reverse_order (cs : List (String × Device))
    (hnodup : (cs.map Prod.fst).Nodup) :
    ((cs.foldl (fun (m : DeviceManager) p => m.getDevice p.1 p.2)
        { virtual_devices := [], active_devices := [] }).close_devices).1
      = ((cs.map Prod.snd).reverse).filterMap closeAttempt ∧
    ((cs.foldl (fun (m : DeviceManager) p => m.getDevice p.1 p.2)
        { virtual_devices := [], active_devices := [] }).close_devices).2.active_devices
      = [] := by
  have hactive := active_after_creations cs
      { virtual_devices := [], active_devices := [] }
      (by intro p _; rfl) (by intro p _; rfl) hnodup
  unfold DeviceManager.close_devices
  rw [closeLoop_eq_filterMap, hactive]
  simp

/-- Witness for C5: devices A, B, C created in that order, where closing B
raises; the close trace is C, B, A (B's failure does not stop A's close) and
the active mapping is empty. -/
theorem close_devices_reverse_order_witness :
    (([("A", ⟨0, DevKind.closable, false⟩), ("B", ⟨1, DevKind.closable, true⟩),
       ("C", ⟨2, DevKind.client, false⟩)].foldl
        (fun (m : DeviceManager) p => m.getDevice p.1 p.2)
        { virtual_devices := [], active_devices := [] }).close_devices).1
      = [(2, false), (1, true), (0, false)] ∧
    (([("A", ⟨0, DevKind.closable, false⟩), ("B", ⟨1, DevKind.closable, true⟩),
       ("C", ⟨2, DevKind.client, false⟩)].foldl
        (fun (m : DeviceManager) p => m.getDevice p.1 p.2)
        { virtual_devices := [], active_devices := [] }).close_devices).2.active_devices
      = [] := by
  have h := close_devices_reverse_order
      [("A", ⟨0, DevKind.closable, false⟩), ("B", ⟨1, DevKind.closable, true⟩),
       ("C", ⟨2, DevKind.client, false⟩)] (by decide)
  exact ⟨h.1.trans (by rfl), h.2⟩

/-! ## Run-id allocator theorems -/

/-- Running maximum over a list of candidate RIDs, starting from `r`. -/
def maxFold (l : List Nat) (r : Int) : Int :=
  l.foldl (fun (r : Int) (n : Nat) => max r (n : Int)) r

theorem maxFold_append (xs ys : List Nat) (r : Int) :
    maxFold (xs ++ ys) r = maxFold ys (maxFold xs r) := by
  unfold maxFold
  exact List.foldl_append ..

theorem if_gt_eq_max (r : Int) (n : Nat) :
    (if (n : Int) > r then (n : Int) else r) = max r (n : Int) := by
  rcases le_or_lt (n : Int) r with h | h
  · rw [if_neg (not_lt.mpr h), max_eq_left h]
  · rw [if_pos h, max_eq_right h.le]

/-- Generic shape of one level of the scan: if each element's fold step is a
running maximum over its own matched RIDs, the whole fold is a running
maximum over the concatenation. -/
theorem foldl_maxFold_flatMap {β : Type} (g : β → Int → Int) (h : β → List Nat)
    (hg : ∀ b r, g b r = maxFold (h b) r) (l : List β) :
    ∀ r : Int, l.foldl (fun r b => g b r) r = maxFold (l.flatMap h) r := by
  induction l with
  | nil => intro r; rfl
  | cons b rest ih =>
      intro r
      rw [List.foldl_cons, List.flatMap_cons, maxFold_append, ← hg b r, ih (g b r)]

/-- The matched RIDs of one minute folder entry: nothing when its listing
failed, otherwise the RIDs of the file names matching
`(\d{9})-.*\.h5`. -/
def minuteRids (mf : String × MinuteListing) : List Nat :=
  match mf.2 with
  | Option.none => []
  | some h5files => h5files.filterMap matchResultFile

/-- The matched RIDs of one day folder entry: nothing when its listing
failed, otherwise the RIDs found in its minute folders with names matching
`\d\d-\d\d`. -/
def dayRids (df : String × DayListing) : List Nat :=
  match df.2 with
  | Option.none => []
  | some minuteFolders =>
      (minuteFolders.filter (fun mf => matchMinute mf.1)).flatMap minuteRids

/-- All RIDs of results-tree entries matching the layout
`<root>/<YYYY-MM-DD>/<HH-MM>/<9-digit-RID>-<name>.h5`; entries that do not
match the pattern, and unreadable directories, contribute nothing. -/
def matchedRids (rl : ResultsListing) : List Nat :=
  match rl with
  | Option.none => []
  | some dayFolders =>
      (dayFolders.filter (fun df => matchDay df.1)).flatMap dayRids

theorem fileFold_eq_maxFold (h5files : List String) :
    ∀ r : Int,
    h5files.foldl (fun r x =>
        match matchResultFile x with
        | Option.none => r
        | some rid => if (rid : Int) > r then rid else r) r
      = maxFold (h5files.filterMap matchResultFile) r := by
  induction h5files with
  | nil => intro r; rfl
  | cons x rest ih =>
      intro r
      rw [List.foldl_cons, List.filterMap_cons]
      cases h : matchResultFile x with
      | none => simp only [h]; exact ih r
      | some rid =>
          simp only [h]
          rw [if_gt_eq_max]
          exact ih _

/-- `_last_rid_from_results` computes exactly the maximum of `-1` and the
RIDs of all entries matching the results layout. -/
theorem lastRid_eq_maxFold (rl : ResultsListing) :
    lastRidFromResults rl = maxFold (matchedRids rl) (-1) := by
  cases rl with
  | none => rfl
  | some dayFolders =>
      show (dayFolders.filter (fun df => matchDay df.1)).foldl _ (-1) = _
      exact foldl_maxFold_flatMap _ dayRids
        (by
          intro df r
          unfold dayRids
          cases hdf : df.2 with
          | none => rfl
          | some minuteFolders =>
              show (minuteFolders.filter (fun mf => matchMinute mf.1)).foldl _ r = _
              exact foldl_maxFold_flatMap _ minuteRids
                (by
                  intro mf r
                  unfold minuteRids
                  cases hmf : mf.2 with
                  | none => rfl
                  | some h5files => exact fileFold_eq_maxFold h5files r)
                (minuteFolders.filter (fun mf => matchMinute mf.1)) r)
        (dayFolders.filter (fun df => matchDay df.1)) (-1)

/-- Behaviour of a run of `n` successive `get()` calls: the returned ids
count up from the initial `_next_rid`, the in-memory counter advances by
`n`, and (when at least one id was returned) the cache ends up holding the
last returned id; the results tree is never written. -/
theorem runGets_spec (n : Nat) :
    ∀ (c : RIDCounter) (fs : FS),
    (runGets n c fs).1 = (List.range n).map (fun (i : Nat) => c.next_rid + (i : Int)) ∧
    (runGets n c fs).2.1.next_rid = c.next_rid + n ∧
    (runGets n c fs).2.2
      = (if n = 0 then fs else updateCache fs (c.next_rid + n - 1)) := by
  induction n with
  | zero => intro c fs; simp [runGets]
  | succ n ih =>
      intro c fs
      obtain ⟨h1, h2, h3⟩ :=
        ih { next_rid := c.next_rid + 1 } (updateCache fs c.next_rid)
      have hstep : runGets (n + 1) c fs
          = (c.next_rid :: (runGets n { next_rid := c.next_rid + 1 }
               (updateCache fs c.next_rid)).1,
             (runGets n { next_rid := c.next_rid + 1 }
               (updateCache fs c.next_rid)).2) := rfl
      rw [hstep]
      refine ⟨?_, ?_, ?_⟩
      · have hcast : ∀ i : Nat, c.next_rid + ((i + 1 : Nat) : Int)
            = c.next_rid + 1 + (i : Int) := by
          intro i; push_cast; omega
        rw [List.range_succ_eq_map, List.map_cons, List.map_map]
        simp only [h1]
        refine List.cons_eq_cons.mpr ⟨by simp, ?_⟩
        refine List.map_congr_left ?_
        intro i _
        show c.next_rid + 1 + (i : Int) = c.next_rid + ((i + 1 : Nat) : Int)
        rw [hcast i]
      · rw [h2]; push_cast; omega
      · rw [h3]
        rcases Nat.eq_zero_or_pos n with hz | hp
        · subst hz
          simp [updateCache]
        · rw [if_neg (Nat.pos_iff_ne_zero.mp hp),
              if_neg (Nat.succ_ne_zero n)]
          simp only [updateCache, FS.mk.injEq, Option.some_inj]
          refine ⟨?_, trivial⟩
          push_cast
          ring

/-- C2: on a fresh allocator (no cache file, no results directory) the ids
returned by `n` successive `get()` calls are exactly `0, 1, …, n-1`; and an
allocator recreated from the cache file that run left behind returns `n` —
one greater than the last id of the previous allocator — as its first id. -/
theorem rid_sequence_continues (n : Nat) (hn : 0 < n) :
    (runGets n (RIDCounter.new { cache := none, results := none }).1
        (RIDCounter.new { cache := none, results := none }).2).1
      = (List.range n).map (fun (i : Nat) => (i : Int)) ∧
    ((RIDCounter.new (runGets n (RIDCounter.new { cache := none, results := none }).1
          (RIDCounter.new { cache := none, results := none }).2).2.2).1.get
        (RIDCounter.new (runGets n (RIDCounter.new { cache := none, results := none }).1
          (RIDCounter.new { cache := none, results := none }).2).2.2).2).1
      = n := by
  have hnew : RIDCounter.new { cache := none, results := none }
      = ({ next_rid := 0 }, { cache := some (-1), results := none }) := rfl
  obtain ⟨h1, h2, h3⟩ :=
    runGets_spec n { next_rid := 0 } { cache := some (-1), results := none }
  rw [hnew]
  constructor
  · rw [h1]
    simp
  · rw [h3, if_neg (Nat.pos_iff_ne_zero.mp hn)]
    show ((0 : Int) + n - 1) + 1 = (n : Int)
    omega

/-- Witness for C2 at `n = 3`: the fresh run returns `0, 1, 2` and the
recreated allocator returns `3` first. -/
theorem rid_sequence_continues_witness :
    (runGets 3 (RIDCounter.new { cache := none, results := none }).1
        (RIDCounter.new { cache := none, results := none }).2).1
      = (List.range 3).map (fun (i : Nat) => (i : Int)) ∧
    ((RIDCounter.new (runGets 3 (RIDCounter.new { cache := none, results := none }).1
          (RIDCounter.new { cache := none, results := none }).2).2.2).1.get
        (RIDCounter.new (runGets 3 (RIDCounter.new { cache := none, results := none }).1
          (RIDCounter.new { cache := none, results := none }).2).2.2).2).1
      = 3 :=
  rid_sequence_continues 3 (by decide)

/-- A concrete results tree for C3: one matching day folder with one
matching minute folder holding `000000007-foo.h5` plus assorted entries
that fail the pattern (`readme.txt`, an 8-digit RID, a non-matching minute
folder and a non-matching day folder, each hiding a larger RID). -/
def exampleResultsTree : FS :=
  { cache := none,
    results := some
      [("2015-01-01", some
          [("12-34", some ["000000007-foo.h5", "readme.txt", "0007-foo.h5"]),
           ("junk", some ["000000099-x.h5"])]),
       ("not-a-day", some [("12-34", some ["000000050-x.h5"])])] }

/-- C3: with no cache file, recovery scans the results tree and takes the
maximum RID over entries matching the
`<root>/<YYYY-MM-DD>/<HH-MM>/<9-digit-RID>-<name>.h5` layout, ignoring
non-matching entries (first conjunct, via `matchedRids`); in particular,
on a tree containing `.../000000007-foo.h5` (and only non-matching entries
besides) the next allocated id is `8`. -/
theorem rid_recovery_scan_max :
    (∀ rl : ResultsListing,
        lastRidFromResults rl = maxFold (matchedRids rl) (-1)) ∧
    matchedRids exampleResultsTree.results = [7] ∧
    ((RIDCounter.new exampleResultsTree).1.get
        (RIDCounter.new exampleResultsTree).2).1 = 8 :=
  ⟨lastRid_eq_maxFold, rfl, rfl⟩

/-- C4: recovery without a cache never fails.  A missing or unreadable
results directory is treated as empty: the recovered last id is `-1`, the
fresh allocator's `_next_rid` is `0` and its first `get()` returns `0`.
A failed `os.listdir` on a single day or minute subdirectory is likewise
skipped without aborting the scan: deleting such an entry from the tree
does not change the recovered value. -/
theorem rid_recovery_resilient :
    (lastRidFromResults none = -1 ∧
     (RIDCounter.new { cache := none, results := none }).1.next_rid = 0 ∧
     ((RIDCounter.new { cache := none, results := none }).1.get
        (RIDCounter.new { cache := none, results := none }).2).1 = 0) ∧
    (∀ (days1 days2 : List (String × DayListing)) (nm : String),
        lastRidFromResults (some (days1 ++ (nm, none) :: days2))
          = lastRidFromResults (some (days1 ++ days2))) ∧
    (∀ (days1 days2 : List (String × DayListing)) (dn : String)
        (mins1 mins2 : List (String × MinuteListing)) (nm : String),
        lastRidFromResults
            (some (days1 ++ (dn, some (mins1 ++ (nm, none) :: mins2)) :: days2))
          = lastRidFromResults
            (some (days1 ++ (dn, some (mins1 ++ mins2)) :: days2))) := by
  refine ⟨⟨rfl, rfl, rfl⟩, ?_, ?_⟩
  · intro days1 days2 nm
    rw [lastRid_eq_maxFold, lastRid_eq_maxFold]
    congr 1
    unfold matchedRids
    by_cases h : matchDay nm <;>
      simp [List.filter_append, List.filter_cons, h, dayRids]
  · intro days1 days2 dn mins1 mins2 nm
    rw [lastRid_eq_maxFold, lastRid_eq_maxFold]
    congr 1
    unfold matchedRids
    by_cases hd : matchDay dn <;>
      by_cases hm : matchMinute nm <;>
        simp [List.filter_append, List.filter_cons, hd, hm, dayRids, minuteRids]

/-! ## Result serializer theorems -/

/-- C8: a boolean is serialized as a 1-byte signed integer dataset
(`STD_I8BE`, width 1) valued `0` or `1` and tagged with the `py_bool`
attribute — not as a 64-bit integer — while a non-boolean native integer is
serialized as a 64-bit big-endian signed integer (`STD_I64BE`, width 8)
tagged with the native-integer marker `py_int`.  The boolean case wins even
though a Python `bool` is also an `int`, because it is tested first. -/
theorem bool_serialized_before_int (b : Bool) (n : Int) :
    serializeValue (PyVal.pyBool b)
      = Except.ok { dtype := some H5Type.STD_I8BE,
                    data := H5Data.intVal (if b then 1 else 0),
                    attrs := [("py_bool", 1)] } ∧
    H5Type.STD_I8BE.byteLen = 1 ∧
    H5Type.STD_I8BE ≠ H5Type.STD_I64BE ∧
    serializeValue (PyVal.pyInt n)
      = Except.ok { dtype := some H5Type.STD_I64BE,
                    data := H5Data.intVal (toInt64 n),
                    attrs := [("py_int", 1)] } ∧
    H5Type.STD_I64BE.byteLen = 8 := by
  refine ⟨?_, rfl, by decide, rfl, rfl⟩
  cases b <;> rfl

/-- Under the ASCII-only hypothesis every character encodes to one byte. -/
theorem pyEncode_length_ascii (cs : List Char)
    (h : ∀ c ∈ cs, c.toNat < 128) :
    (cs.foldr (fun c bs => utf8EncodeChar c ++ bs) []).length = cs.length := by
  induction cs with
  | nil => rfl
  | cons c rest ih =>
      have hc : c.toNat < 128 := h c (by simp)
      have hrest := ih (fun c' hc' => h c' (List.mem_cons_of_mem _ hc'))
      simp only [List.foldr_cons, List.length_append, List.length_cons, hrest]
      rw [utf8EncodeChar, if_pos hc]
      simp [Nat.add_comm]

/-- C9 counterexample: serializing the one-character string `"é"` declares
the fixed byte-string length `1` (`len` of the text, taken before encoding),
but the stored UTF-8 encoding is the two bytes `0xC3 0xA9` — so the declared
length is not the encoded byte length. -/
theorem string_length_counterexample :
    serializeValue (PyVal.pyStr "é")
      = Except.ok { dtype := some (H5Type.S 1),
                    data := H5Data.bytes [0xC3, 0xA9], attrs := [] } ∧
    (pyEncode "é").length = 2 ∧
    (H5Type.S 1).byteLen ≠ (pyEncode "é").length := by
  refine ⟨rfl, rfl, by decide⟩

/-- C9 (amended): a string is serialized as a fixed-length byte-string
dataset whose declared length is the number of characters (code points) of
the string — the length is taken before the string is UTF-8 encoded for
storage, so it equals the encoded byte length only when every character is
ASCII.  In particular `"abc"` yields a fixed-length-3 dataset. -/
theorem string_serialized_fixed_length (s : String) :
    serializeValue (PyVal.pyStr s)
      = Except.ok { dtype := some (H5Type.S s.length),
                    data := H5Data.bytes (pyEncode s), attrs := [] } ∧
    ((∀ c ∈ s.data, c.toNat < 128) → (pyEncode s).length = s.length) := by
  constructor
  · rfl
  · intro h
    exact pyEncode_length_ascii s.data h

/-- Witness for C9 (amended) at `"abc"`: a fixed-length-3 dataset holding
the three ASCII bytes. -/
theorem string_serialized_fixed_length_witness :
    serializeValue (PyVal.pyStr "abc")
      = Except.ok { dtype := some (H5Type.S 3),
                    data := H5Data.bytes [97, 98, 99], attrs := [] } ∧
    (pyEncode "abc").length = "abc".length :=
  ⟨((string_serialized_fixed_length "abc").1).trans (by rfl),
   (string_serialized_fixed_length "abc").2 (by decide)⟩

end WorkerDB
